import Mathlib

/-!
Shallow embedding of the `serde-duration-ext` crate's core
(`src/timetunit.rs`, `src/durationunit.rs`, `src/error.rs`):
the `TimeUnit` enumeration with its alias table, the `DurationUnit`
pair, the regex-driven string parser, and the conversions to whole
seconds and to `std::time::Duration`.

Machine integers (`u64`) are modelled as `Nat`; where Rust release-mode
arithmetic wraps on overflow the model takes the product modulo `2 ^ 64`.
A Rust panic (from `.unwrap()` on an `Err`) is modelled as the explicit
outcome `ParseOutcome.panicked`.
-/

namespace SerdeDurationExt

/-- The `TimeUnit` enum of `src/timetunit.rs` (derives
`PartialEq, Eq, PartialOrd, Ord, Hash, Clone, Copy`). -/
inductive TimeUnit where
  | Nanosecond
  | Microsecond
  | Millisecond
  | Second
  | Minute
  | Hour
  | Day
  | Week
deriving DecidableEq, Fintype

/-- Rust's derived `Ord` on a fieldless enum compares declaration-order
discriminants; these are the discriminants of `TimeUnit`. -/
def TimeUnit.discr : TimeUnit → Nat
  | .Nanosecond => 0
  | .Microsecond => 1
  | .Millisecond => 2
  | .Second => 3
  | .Minute => 4
  | .Hour => 5
  | .Day => 6
  | .Week => 7

/-- The derived `Ord::cmp` on `TimeUnit`: comparison of discriminants. -/
def TimeUnit.cmp (a b : TimeUnit) : Ordering :=
  compare a.discr b.discr

/-- The `Error` enum of `src/error.rs`. -/
inductive Error where
  | Syntax (msg : String)
  | UnitNotSupported (msg : String)
  | NoUnitProvided
  | NoValueProvided
  | StringDoesNotMatchRegex
deriving DecidableEq

/-- `impl FromStr for TimeUnit` (`src/timetunit.rs`): exact, case-sensitive
match against the fixed alias table; any other token yields
`UnitNotSupported` carrying the offending token in its message
(`format!("Unit '{}' not supported", s)`). -/
def TimeUnit.from_str (s : String) : Except Error TimeUnit :=
  match s with
  | "ns" | "nanosecond" | "nanos" | "nanoseconds" => .ok .Nanosecond
  | "us" | "microsecond" | "micros" | "microseconds" => .ok .Microsecond
  | "ms" | "millisecond" | "millis" | "milliseconds" => .ok .Millisecond
  | "s" | "second" | "secs" | "seconds" => .ok .Second
  | "m" | "minute" | "mins" | "minutes" => .ok .Minute
  | "h" | "hour" | "hours" => .ok .Hour
  | "d" | "day" | "days" => .ok .Day
  | "w" | "week" | "weeks" => .ok .Week
  | _ => .error (.UnitNotSupported ("Unit '" ++ s ++ "' not supported"))

/-- The alias table of `TimeUnit::from_str`, as a list of
(token, unit) pairs — 29 tokens in total. -/
def aliasTable : List (String × TimeUnit) :=
  [("ns", .Nanosecond), ("nanosecond", .Nanosecond), ("nanos", .Nanosecond),
   ("nanoseconds", .Nanosecond),
   ("us", .Microsecond), ("microsecond", .Microsecond), ("micros", .Microsecond),
   ("microseconds", .Microsecond),
   ("ms", .Millisecond), ("millisecond", .Millisecond), ("millis", .Millisecond),
   ("milliseconds", .Millisecond),
   ("s", .Second), ("second", .Second), ("secs", .Second), ("seconds", .Second),
   ("m", .Minute), ("minute", .Minute), ("mins", .Minute), ("minutes", .Minute),
   ("h", .Hour), ("hour", .Hour), ("hours", .Hour),
   ("d", .Day), ("day", .Day), ("days", .Day),
   ("w", .Week), ("week", .Week), ("weeks", .Week)]

/-- `SECS_PER_MINUTE` of `src/durationunit.rs`. -/
def SECS_PER_MINUTE : Nat := 60
/-- `SECS_PER_HOUR` of `src/durationunit.rs`. -/
def SECS_PER_HOUR : Nat := 3600
/-- `SECS_PER_DAY` of `src/durationunit.rs`. -/
def SECS_PER_DAY : Nat := 86400
/-- `SECS_PER_WEEK` of `src/durationunit.rs`. -/
def SECS_PER_WEEK : Nat := 604800

/-- The `DurationUnit` struct of `src/durationunit.rs`: a `u64` value
paired with a `TimeUnit` (derives `PartialEq, Eq, PartialOrd, Ord, Hash,
Clone`). The `u64` field is a `Nat`; parsing only ever produces values
below `2 ^ 64`. -/
structure DurationUnit where
  value : Nat
  unit : TimeUnit
deriving DecidableEq

/-- The derived `Ord::cmp` on `DurationUnit`: lexicographic by field
declaration order (`value` first, then `unit`). -/
def DurationUnit.cmp (a b : DurationUnit) : Ordering :=
  (compare a.value b.value).then (TimeUnit.cmp a.unit b.unit)

/-- `DurationUnit::new`. -/
def DurationUnit.new (value : Nat) (unit : TimeUnit) : DurationUnit :=
  ⟨value, unit⟩

/-- `DurationUnit::as_secs` (`src/durationunit.rs`): sub-second units
floor-divide, `Second` is the identity, larger units multiply by the
seconds-per-unit constant. The multiplications are `u64` multiplications,
which wrap modulo `2 ^ 64` in release builds. -/
def DurationUnit.as_secs (d : DurationUnit) : Nat :=
  match d.unit with
  | .Nanosecond => d.value / 1000000000
  | .Microsecond => d.value / 1000000
  | .Millisecond => d.value / 1000
  | .Second => d.value
  | .Minute => (d.value * SECS_PER_MINUTE) % 2 ^ 64
  | .Hour => (d.value * SECS_PER_HOUR) % 2 ^ 64
  | .Day => (d.value * SECS_PER_DAY) % 2 ^ 64
  | .Week => (d.value * SECS_PER_WEEK) % 2 ^ 64

/-- `std::time::Duration`: a whole-seconds count and a sub-second
nanosecond remainder (`nanos < 10 ^ 9`). -/
structure Duration where
  secs : Nat
  nanos : Nat
deriving DecidableEq

/-- `std::time::Duration::from_nanos`. -/
def Duration.from_nanos (n : Nat) : Duration :=
  ⟨n / 1000000000, n % 1000000000⟩

/-- `std::time::Duration::from_micros`. -/
def Duration.from_micros (n : Nat) : Duration :=
  ⟨n / 1000000, n % 1000000 * 1000⟩

/-- `std::time::Duration::from_millis`. -/
def Duration.from_millis (n : Nat) : Duration :=
  ⟨n / 1000, n % 1000 * 1000000⟩

/-- `std::time::Duration::from_secs`. -/
def Duration.from_secs (n : Nat) : Duration :=
  ⟨n, 0⟩

/-- `impl From<DurationUnit> for std::time::Duration`
(`src/durationunit.rs`): per-unit dispatch to the native constructor;
for `Minute` and above the `u64` multiplication wraps modulo `2 ^ 64`. -/
def Duration.fromDurationUnit (d : DurationUnit) : Duration :=
  match d.unit with
  | .Nanosecond => Duration.from_nanos d.value
  | .Microsecond => Duration.from_micros d.value
  | .Millisecond => Duration.from_millis d.value
  | .Second => Duration.from_secs d.value
  | .Minute => Duration.from_secs ((d.value * SECS_PER_MINUTE) % 2 ^ 64)
  | .Hour => Duration.from_secs ((d.value * SECS_PER_HOUR) % 2 ^ 64)
  | .Day => Duration.from_secs ((d.value * SECS_PER_DAY) % 2 ^ 64)
  | .Week => Duration.from_secs ((d.value * SECS_PER_WEEK) % 2 ^ 64)

/-- ASCII decimal digit check, as performed byte-wise by Rust's
`u64::from_str` (`from_str_radix` with radix 10). -/
def isAsciiDigit (c : Char) : Bool :=
  48 ≤ c.toNat && c.toNat ≤ 57

/-- The Unicode `Nd` (decimal number) code-point ranges. The regex
crate's `\d` is Unicode-aware by default and matches exactly `\p{Nd}`. -/
def ndRanges : List (Nat × Nat) :=
  [(0x30, 0x39), (0x660, 0x669), (0x6F0, 0x6F9), (0x7C0, 0x7C9),
   (0x966, 0x96F), (0x9E6, 0x9EF), (0xA66, 0xA6F), (0xAE6, 0xAEF),
   (0xB66, 0xB6F), (0xBE6, 0xBEF), (0xC66, 0xC6F), (0xCE6, 0xCEF),
   (0xD66, 0xD6F), (0xDE6, 0xDEF), (0xE50, 0xE59), (0xED0, 0xED9),
   (0xF20, 0xF29), (0x1040, 0x1049), (0x1090, 0x1099), (0x17E0, 0x17E9),
   (0x1810, 0x1819), (0x1946, 0x194F), (0x19D0, 0x19D9), (0x1A80, 0x1A89),
   (0x1A90, 0x1A99), (0x1B50, 0x1B59), (0x1BB0, 0x1BB9), (0x1C40, 0x1C49),
   (0x1C50, 0x1C59), (0xA620, 0xA629), (0xA8D0, 0xA8D9), (0xA900, 0xA909),
   (0xA9D0, 0xA9D9), (0xA9F0, 0xA9F9), (0xAA50, 0xAA59), (0xABF0, 0xABF9),
   (0xFF10, 0xFF19), (0x104A0, 0x104A9), (0x10D30, 0x10D39),
   (0x11066, 0x1106F), (0x110F0, 0x110F9), (0x11136, 0x1113F),
   (0x111D0, 0x111D9), (0x112F0, 0x112F9), (0x11450, 0x11459),
   (0x114D0, 0x114D9), (0x11650, 0x11659), (0x116C0, 0x116C9),
   (0x11730, 0x11739), (0x118E0, 0x118E9), (0x11950, 0x11959),
   (0x11C50, 0x11C59), (0x11D50, 0x11D59), (0x11DA0, 0x11DA9),
   (0x11F50, 0x11F59), (0x16A60, 0x16A69), (0x16AC0, 0x16AC9),
   (0x16B50, 0x16B59), (0x1D7CE, 0x1D7FF), (0x1E140, 0x1E149),
   (0x1E2F0, 0x1E2F9), (0x1E4F0, 0x1E4F9), (0x1E950, 0x1E959),
   (0x1FBF0, 0x1FBF9)]

/-- `\d` of the regex crate: a Unicode decimal digit (category `Nd`). -/
def isNd (c : Char) : Bool :=
  ndRanges.any fun r => r.1 ≤ c.toNat && c.toNat ≤ r.2

/-- The eight short unit codes of the alternation
`ns|us|ms|s|m|h|d|w` in `DURATION_REGEX`. -/
def shortCodes : List String :=
  ["ns", "us", "ms", "s", "m", "h", "d", "w"]

/-- The `value` capture of `DURATION_REGEX` on a matching string: the
digit run `\d+`. None of the short codes contains an `Nd` character, so
on any matching string the digit run is exactly the maximal `Nd`-prefix
of the input. -/
def digitRun (s : String) : List Char :=
  s.data.takeWhile isNd

/-- The `unit` capture of `DURATION_REGEX` on a matching string:
everything after the digit run (which must be one of the short codes). -/
def unitRest (s : String) : List Char :=
  s.data.dropWhile isNd

/-- `DURATION_REGEX.is_match`: the anchored pattern
`^(?P<value>\d+)(?P<unit>ns|us|ms|s|m|h|d|w){1}$` matches a string iff
it decomposes as a non-empty run of `Nd` digits followed by exactly one
short code. Since no short code contains an `Nd` character, the
decomposition is unique: the digit run is the maximal `Nd`-prefix. -/
def regexIsMatch (s : String) : Bool :=
  !(digitRun s).isEmpty && shortCodes.contains (String.mk (unitRest s))

/-- `DURATION_REGEX.captures`: `Some` exactly when the regex matches,
yielding the `value` and `unit` captures. -/
def regexCaptures (s : String) : Option (String × String) :=
  if regexIsMatch s then some (String.mk (digitRun s), String.mk (unitRest s))
  else none

/-- The numeric value denoted by a run of ASCII digits. -/
def digitsVal (cs : List Char) : Nat :=
  cs.foldl (fun acc c => acc * 10 + (c.toNat - 48)) 0

/-- Rust's `u64::from_str`: an optional leading `+`, then one or more
bytes that must all be ASCII digits; fails (`InvalidDigit`) on any other
byte and fails (`PosOverflow`) when the denoted value exceeds
`u64::MAX = 2 ^ 64 - 1`. -/
def parseU64 (s : String) : Option Nat :=
  let cs := if s.data.head? = some '+' then s.data.tail else s.data
  if cs.isEmpty then none
  else if cs.all isAsciiDigit then
    if digitsVal cs < 2 ^ 64 then some (digitsVal cs) else none
  else none

/-- The possible outcomes of `DurationUnit::from_str`: a parsed value,
a returned `Error`, or a Rust panic (from `.unwrap()` on an `Err`). -/
inductive ParseOutcome where
  | ok (d : DurationUnit)
  | err (e : Error)
  | panicked
deriving DecidableEq

/-- `impl FromStr for DurationUnit` (`src/durationunit.rs`):
`is_match`, then `captures` (with the `StringDoesNotMatchRegex`
fallback), then `caps["value"].parse().unwrap()` — a panic when the
`u64` parse fails — then `caps["unit"].parse::<TimeUnit>()?`. -/
def DurationUnit.from_str (s : String) : ParseOutcome :=
  if regexIsMatch s then
    match regexCaptures s with
    | none => .err .StringDoesNotMatchRegex
    | some (v, u) =>
      match parseU64 v with
      | none => .panicked
      | some value =>
        match TimeUnit.from_str u with
        | .error e => .err e
        | .ok unit => .ok ⟨value, unit⟩
  else
    .err (.Syntax "Current string is not correct duration unit value")

/-- The short-code resolution table used by the full-string grammar:
code ↦ unit, for the eight codes of the regex alternation. -/
def shortCodeTable : List (String × TimeUnit) :=
  [("ns", .Nanosecond), ("us", .Microsecond), ("ms", .Millisecond),
   ("s", .Second), ("m", .Minute), ("h", .Hour), ("d", .Day), ("w", .Week)]

/-! ### Helper lemmas -/

theorem isNd_of_isAsciiDigit {c : Char} (h : isAsciiDigit c = true) :
    isNd c = true := by
  simp only [isAsciiDigit, Bool.and_eq_true, decide_eq_true_eq] at h
  simp only [isNd, ndRanges, List.any_cons, List.any_nil, Bool.or_eq_true,
    Bool.and_eq_true, decide_eq_true_eq]
  omega

theorem takeWhile_append_all {p : Char → Bool} {xs ys : List Char}
    (hxs : ∀ c ∈ xs, p c = true)
    (hys : ∀ c, ys.head? = some c → p c = false) :
    (xs ++ ys).takeWhile p = xs ∧ (xs ++ ys).dropWhile p = ys := by
  induction xs with
  | nil =>
    simp only [List.nil_append]
    cases ys with
    | nil => simp [List.takeWhile, List.dropWhile]
    | cons c cs =>
      have hc : p c = false := hys c rfl
      simp [List.takeWhile, List.dropWhile, hc]
  | cons x xs ih =>
    have hx : p x = true := hxs x (List.mem_cons_self x xs)
    have hrest := ih (fun c hc => hxs c (List.mem_cons_of_mem x hc))
    simp [List.takeWhile, List.dropWhile, hx, hrest.1, hrest.2]

theorem tu_from_str_err_shape (s : String) (e : Error)
    (h : TimeUnit.from_str s = .error e) :
    e = .UnitNotSupported ("Unit '" ++ s ++ "' not supported") := by
  unfold TimeUnit.from_str at h
  split at h <;> simp_all

/-- Core success lemma for the full-string parser: a non-empty ASCII
digit run whose value fits `u64`, followed by a short code that resolves
to `tu`, parses to `⟨value, tu⟩`. -/
theorem from_str_ok_general (ds ud : List Char) (tu : TimeUnit)
    (hne : ds ≠ [])
    (hdig : ∀ c ∈ ds, isAsciiDigit c = true)
    (hval : digitsVal ds < 2 ^ 64)
    (hhead : ∀ c, ud.head? = some c → isNd c = false)
    (hcode : shortCodes.contains (String.mk ud) = true)
    (hresolve : TimeUnit.from_str (String.mk ud) = .ok tu) :
    DurationUnit.from_str (String.mk (ds ++ ud)) = .ok ⟨digitsVal ds, tu⟩ := by
  have hsplit :
      (ds ++ ud).takeWhile isNd = ds ∧ (ds ++ ud).dropWhile isNd = ud :=
    takeWhile_append_all (fun c hc => isNd_of_isAsciiDigit (hdig c hc)) hhead
  have hrun : digitRun (String.mk (ds ++ ud)) = ds := hsplit.1
  have hrest : unitRest (String.mk (ds ++ ud)) = ud := hsplit.2
  have hnee : ds.isEmpty = false := by
    cases ds with
    | nil => exact absurd rfl hne
    | cons a b => rfl
  have hmatch : regexIsMatch (String.mk (ds ++ ud)) = true := by
    unfold regexIsMatch
    rw [hrun, hrest, hnee, hcode]
    rfl
  have hparse : parseU64 (String.mk ds) = some (digitsVal ds) := by
    obtain ⟨d0, ds', rfl⟩ : ∃ d0 ds', ds = d0 :: ds' := by
      cases ds with
      | nil => exact absurd rfl hne
      | cons a b => exact ⟨a, b, rfl⟩
    have hd0 : isAsciiDigit d0 = true := hdig d0 (List.mem_cons_self d0 ds')
    have hplus : d0 ≠ '+' := by
      intro h
      subst h
      simp [isAsciiDigit] at hd0
    have hall : (d0 :: ds').all isAsciiDigit = true := by
      simpa using hdig
    unfold parseU64
    have hcs : (String.mk (d0 :: ds')).data = d0 :: ds' := rfl
    simp only [hcs, List.head?, Option.some.injEq, if_neg hplus,
      List.isEmpty_cons, hall, hval, if_true, if_false]
    simp [hval]
  unfold DurationUnit.from_str
  rw [if_pos hmatch]
  unfold regexCaptures
  rw [if_pos hmatch]
  simp only [hrun, hrest, hparse, hresolve]

theorem head_not_nd {c0 : Char} {cs : List Char} (h : isNd c0 = false) :
    ∀ c, (c0 :: cs).head? = some c → isNd c = false := by
  intro c hc
  obtain rfl : c0 = c := by injection hc
  exact h

/-- The detector for the internal `StringDoesNotMatchRegex` failure
branch of `DurationUnit::from_str`. -/
def isRegexInvariantViolation : ParseOutcome → Bool
  | .err .StringDoesNotMatchRegex => true
  | _ => false

theorem timeUnit_cmp_eq_iff : ∀ a b : TimeUnit, TimeUnit.cmp a b = .eq ↔ a = b := by
  decide

instance : DecidableEq (Except Error TimeUnit) := fun a b =>
  match a, b with
  | .ok x, .ok y =>
    if h : x = y then .isTrue (by rw [h])
    else .isFalse (fun hc => h (Except.ok.inj hc))
  | .error x, .error y =>
    if h : x = y then .isTrue (by rw [h])
    else .isFalse (fun hc => h (Except.error.inj hc))
  | .ok _, .error _ => .isFalse (fun hc => Except.noConfusion hc)
  | .error _, .ok _ => .isFalse (fun hc => Except.noConfusion hc)

/-! ### Claims -/

/-- C1: the claim says an overflow-style syntax error is returned when
the digit run exceeds `u64` range; the code instead calls
`.parse().unwrap()`, which panics on the `PosOverflow` parse error.
At the 20-digit input `"18446744073709551616s"` (value `2 ^ 64`, one
past `u64::MAX`) the regex matches and the parser panics. -/
theorem c1_overflow_digit_run_panics :
    2 ^ 64 - 1 < digitsVal "18446744073709551616".data ∧
    DurationUnit.from_str "18446744073709551616s" = .panicked := by
  decide

/-- C2: the claim says every input outside the ASCII-digit grammar gets
the Syntax error variant and never a panic; but the regex crate's `\d`
is Unicode-aware, so `"٣s"` (U+0663 ARABIC-INDIC DIGIT THREE, then `s`)
matches the regex, after which `u64` parsing of the non-ASCII digit
fails and `.unwrap()` panics. -/
theorem c2_non_ascii_digit_panics :
    isNd (Char.ofNat 0x663) = true ∧
    isAsciiDigit (Char.ofNat 0x663) = false ∧
    DurationUnit.from_str (String.mk [Char.ofNat 0x663, 's']) = .panicked := by
  decide

/-- C3: every string formed of a non-empty ASCII digit run whose value
fits `u64`, followed by one of the eight short codes, parses to the
`DurationUnit` with that value and the resolved unit. -/
theorem c3_valid_short_unit_string_parses (ds : List Char) (u : String)
    (tu : TimeUnit) (hne : ds ≠ [])
    (hdig : ∀ c ∈ ds, isAsciiDigit c = true)
    (hval : digitsVal ds < 2 ^ 64)
    (hu : (u, tu) ∈ shortCodeTable) :
    DurationUnit.from_str (String.mk ds ++ u) = .ok ⟨digitsVal ds, tu⟩ := by
  have hs : String.mk ds ++ u = String.mk (ds ++ u.data) := by
    cases u
    rfl
  rw [hs]
  fin_cases hu
  · exact from_str_ok_general ds ['n', 's'] _ hne hdig hval
      (head_not_nd (by decide)) rfl rfl
  · exact from_str_ok_general ds ['u', 's'] _ hne hdig hval
      (head_not_nd (by decide)) rfl rfl
  · exact from_str_ok_general ds ['m', 's'] _ hne hdig hval
      (head_not_nd (by decide)) rfl rfl
  · exact from_str_ok_general ds ['s'] _ hne hdig hval
      (head_not_nd (by decide)) rfl rfl
  · exact from_str_ok_general ds ['m'] _ hne hdig hval
      (head_not_nd (by decide)) rfl rfl
  · exact from_str_ok_general ds ['h'] _ hne hdig hval
      (head_not_nd (by decide)) rfl rfl
  · exact from_str_ok_general ds ['d'] _ hne hdig hval
      (head_not_nd (by decide)) rfl rfl
  · exact from_str_ok_general ds ['w'] _ hne hdig hval
      (head_not_nd (by decide)) rfl rfl

/-- Witness for C3 at the concrete input `"10s"`. -/
theorem c3_valid_short_unit_string_parses_witness :
    (['1', '0'] ≠ ([] : List Char)) ∧
    ['1', '0'].all isAsciiDigit = true ∧ digitsVal ['1', '0'] < 2 ^ 64 ∧
    ("s", TimeUnit.Second) ∈ shortCodeTable ∧
    DurationUnit.from_str (String.mk ['1', '0'] ++ "s") =
      .ok ⟨digitsVal ['1', '0'], .Second⟩ :=
  ⟨by decide, by decide, by decide, by decide,
   c3_valid_short_unit_string_parses ['1', '0'] "s" .Second (by decide)
     (by decide) (by decide) (by decide)⟩

/-- C4: `as_secs` floor-divides by `10 ^ 9`, `10 ^ 6`, `10 ^ 3` for the
sub-second units, is the identity for `Second`, and multiplies by 60,
3600, 86400, 604800 for `Minute`, `Hour`, `Day`, `Week`, with the
multiplication wrapping silently modulo `2 ^ 64`. -/
theorem c4_as_secs_per_unit (v : Nat) :
    (DurationUnit.mk v .Nanosecond).as_secs = v / 1000000000 ∧
    (DurationUnit.mk v .Microsecond).as_secs = v / 1000000 ∧
    (DurationUnit.mk v .Millisecond).as_secs = v / 1000 ∧
    (DurationUnit.mk v .Second).as_secs = v ∧
    (DurationUnit.mk v .Minute).as_secs = v * 60 % 2 ^ 64 ∧
    (DurationUnit.mk v .Hour).as_secs = v * 3600 % 2 ^ 64 ∧
    (DurationUnit.mk v .Day).as_secs = v * 86400 % 2 ^ 64 ∧
    (DurationUnit.mk v .Week).as_secs = v * 604800 % 2 ^ 64 :=
  ⟨rfl, rfl, rfl, rfl, rfl, rfl, rfl, rfl⟩

/-- C5: the conversion to `std::time::Duration` dispatches to the
unit's native constructor per unit; `parse("500ms")` converts to exactly
500 milliseconds (0 whole seconds plus 500000000 nanoseconds) while its
`as_secs` is 0, and `parse("1w")` converts to exactly 604800 seconds. -/
theorem c5_duration_conversion :
    (∀ v : Nat,
      Duration.fromDurationUnit ⟨v, .Nanosecond⟩ = Duration.from_nanos v ∧
      Duration.fromDurationUnit ⟨v, .Microsecond⟩ = Duration.from_micros v ∧
      Duration.fromDurationUnit ⟨v, .Millisecond⟩ = Duration.from_millis v ∧
      Duration.fromDurationUnit ⟨v, .Second⟩ = Duration.from_secs v ∧
      Duration.fromDurationUnit ⟨v, .Minute⟩ =
        Duration.from_secs (v * SECS_PER_MINUTE % 2 ^ 64) ∧
      Duration.fromDurationUnit ⟨v, .Hour⟩ =
        Duration.from_secs (v * SECS_PER_HOUR % 2 ^ 64) ∧
      Duration.fromDurationUnit ⟨v, .Day⟩ =
        Duration.from_secs (v * SECS_PER_DAY % 2 ^ 64) ∧
      Duration.fromDurationUnit ⟨v, .Week⟩ =
        Duration.from_secs (v * SECS_PER_WEEK % 2 ^ 64)) ∧
    (DurationUnit.from_str "500ms" = .ok ⟨500, .Millisecond⟩ ∧
      Duration.fromDurationUnit ⟨500, .Millisecond⟩ = ⟨0, 500000000⟩ ∧
      (DurationUnit.mk 500 .Millisecond).as_secs = 0) ∧
    (DurationUnit.from_str "1w" = .ok ⟨1, .Week⟩ ∧
      Duration.fromDurationUnit ⟨1, .Week⟩ = ⟨604800, 0⟩) :=
  ⟨fun _ => ⟨rfl, rfl, rfl, rfl, rfl, rfl, rfl, rfl⟩, by decide, by decide⟩

/-- C6: every one of the 29 tokens of the fixed alias table resolves to
its unit under `TimeUnit::from_str`, and every other token fails with
`UnitNotSupported` carrying the offending token in its message. -/
theorem c6_alias_table_resolution (s : String) (u : TimeUnit) :
    ((s, u) ∈ aliasTable → TimeUnit.from_str s = .ok u) ∧
    (s ∉ aliasTable.map Prod.fst →
      TimeUnit.from_str s =
        .error (.UnitNotSupported ("Unit '" ++ s ++ "' not supported"))) := by
  constructor
  · intro hmem
    have hall : ∀ p ∈ aliasTable, TimeUnit.from_str p.1 = .ok p.2 := by decide
    exact hall (s, u) hmem
  · intro hnot
    simp only [aliasTable, List.map_cons, List.map_nil, List.mem_cons,
      List.not_mem_nil, or_false, not_or] at hnot
    unfold TimeUnit.from_str
    split <;> simp_all

/-- Witness for C6: `"ns"` resolves and `"zz"` is rejected with the
token in the message. -/
theorem c6_alias_table_resolution_witness :
    ("ns", TimeUnit.Nanosecond) ∈ aliasTable ∧
    TimeUnit.from_str "ns" = .ok .Nanosecond ∧
    ("zz" ∉ aliasTable.map Prod.fst) ∧
    TimeUnit.from_str "zz" = .error (.UnitNotSupported "Unit 'zz' not supported") :=
  ⟨by decide, (c6_alias_table_resolution "ns" .Nanosecond).1 (by decide),
   by decide, (c6_alias_table_resolution "zz" .Nanosecond).2 (by decide)⟩

/-- C7: once the grammar has matched, captures extraction cannot fail,
so the `StringDoesNotMatchRegex` branch of `DurationUnit::from_str` is
unreachable: no input ever produces that error. -/
theorem c7_regex_invariant_branch_unreachable (s : String) :
    isRegexInvariantViolation (DurationUnit.from_str s) = false := by
  unfold DurationUnit.from_str regexCaptures
  by_cases h : regexIsMatch s = true
  · rw [if_pos h, if_pos h]
    show isRegexInvariantViolation
        (match parseU64 (String.mk (digitRun s)) with
        | none => .panicked
        | some value =>
          match TimeUnit.from_str (String.mk (unitRest s)) with
          | .error e => .err e
          | .ok unit => .ok ⟨value, unit⟩) = false
    cases hp : parseU64 (String.mk (digitRun s)) with
    | none => rfl
    | some value =>
      cases ht : TimeUnit.from_str (String.mk (unitRest s)) with
      | error e =>
        have he := tu_from_str_err_shape _ _ ht
        subst he
        rfl
      | ok u => rfl
  · rw [if_neg h]
    rfl

/-- C8: equality and ordering on `DurationUnit` are structural on the
`(value, unit)` pair: two values with different units are never equal
and never compare `eq`, even when they denote the same physical
duration. -/
theorem c8_structural_equality (v1 v2 : Nat) (u1 u2 : TimeUnit) :
    (DurationUnit.mk v1 u1 = DurationUnit.mk v2 u2 ↔ v1 = v2 ∧ u1 = u2) ∧
    (u1 ≠ u2 → DurationUnit.mk v1 u1 ≠ DurationUnit.mk v2 u2) ∧
    (u1 ≠ u2 → DurationUnit.cmp ⟨v1, u1⟩ ⟨v2, u2⟩ ≠ .eq) := by
  refine ⟨⟨fun h => ?_, fun h => ?_⟩, fun h heq => ?_, fun h => ?_⟩
  · exact ⟨congrArg DurationUnit.value h, congrArg DurationUnit.unit h⟩
  · rw [h.1, h.2]
  · exact h (congrArg DurationUnit.unit heq)
  · unfold DurationUnit.cmp
    cases hc : compare v1 v2 with
    | lt => simp [Ordering.then]
    | gt => simp [Ordering.then]
    | eq =>
      simp only [Ordering.then]
      intro hcmp
      exact h ((timeUnit_cmp_eq_iff u1 u2).mp hcmp)

/-- Witness for C8 at `1` Hour versus `60` Minute: same physical
duration, structurally unequal. -/
theorem c8_structural_equality_witness :
    (TimeUnit.Hour ≠ TimeUnit.Minute) ∧
    DurationUnit.mk 1 .Hour ≠ DurationUnit.mk 60 .Minute ∧
    DurationUnit.cmp ⟨1, .Hour⟩ ⟨60, .Minute⟩ ≠ .eq :=
  ⟨by decide, (c8_structural_equality 1 60 .Hour .Minute).2.1 (by decide),
   (c8_structural_equality 1 60 .Hour .Minute).2.2 (by decide)⟩

/-- C9: the derived comparison on `TimeUnit` is a total order whose
strict part is exactly the chain Nanosecond < Microsecond < Millisecond
< Second < Minute < Hour < Day < Week (i.e. discriminant order). -/
theorem c9_total_order_chain :
    (∀ a b : TimeUnit, TimeUnit.cmp a b = .eq ↔ a = b) ∧
    (∀ a b : TimeUnit, TimeUnit.cmp a b = .lt ↔ TimeUnit.cmp b a = .gt) ∧
    (∀ a b c : TimeUnit,
      TimeUnit.cmp a b = .lt → TimeUnit.cmp b c = .lt → TimeUnit.cmp a c = .lt) ∧
    (∀ a b : TimeUnit, TimeUnit.cmp a b = .lt ↔ a.discr < b.discr) ∧
    (TimeUnit.cmp .Nanosecond .Microsecond = .lt ∧
     TimeUnit.cmp .Microsecond .Millisecond = .lt ∧
     TimeUnit.cmp .Millisecond .Second = .lt ∧
     TimeUnit.cmp .Second .Minute = .lt ∧
     TimeUnit.cmp .Minute .Hour = .lt ∧
     TimeUnit.cmp .Hour .Day = .lt ∧
     TimeUnit.cmp .Day .Week = .lt) :=
  ⟨by decide, by decide, by decide, by decide, by decide⟩

/-- Witness for C9: transitivity applied across
Nanosecond < Microsecond < Millisecond. -/
theorem c9_total_order_chain_witness :
    TimeUnit.cmp .Nanosecond .Microsecond = .lt ∧
    TimeUnit.cmp .Microsecond .Millisecond = .lt ∧
    TimeUnit.cmp .Nanosecond .Millisecond = .lt :=
  ⟨by decide, by decide,
   c9_total_order_chain.2.2.1 .Nanosecond .Microsecond .Millisecond
     (by decide) (by decide)⟩

/-- C10: for every value and unit, `as_secs` agrees with the seconds
component of the `std::time::Duration` obtained from the `From`
conversion, overflowing multiplications wrapping modulo `2 ^ 64` in
both paths. -/
theorem c10_as_secs_agrees_with_duration (v : Nat) (u : TimeUnit) :
    (DurationUnit.mk v u).as_secs = (Duration.fromDurationUnit ⟨v, u⟩).secs := by
  cases u <;> rfl

end SerdeDurationExt
